import Mathlib

/-!
Verification development for the GraphQL HTTP server bootstrap
(`server/http/src/server.rs` of graph-node).

The source file defines `GraphQLServer<Q>` (fields `logger`,
`graphql_runner: Arc<Q>`, `node_id: NodeId`), its constructor `new`, the
error enum `GraphQLServeError` with single variant `BindError(hyper::Error)`,
and `serve(port, ws_port)` which

  1. clones the logger,
  2. logs one `info!` line "Starting GraphQL HTTP server at: http://localhost:{port}",
  3. builds the bind address `SocketAddrV4::new(Ipv4Addr::new(0,0,0,0), port)`,
  4. builds a `make_service_fn` closure producing, per connection,
     `GraphQLService::new(logger.clone(), graphql_runner.clone(), ws_port, node_id.clone())`
     wrapped in `futures03::future::ok`,
  5. calls `Server::try_bind(&addr)?` (bind failure converts into
     `GraphQLServeError::BindError` via `#[from]` and is returned),
  6. on success returns the serve future with
     `.map_err(|e| error!(logger, "Server error"; "error" => format!("{}", e)))`.

The embedding represents the synchronous part of `serve` as a pure function
from an explicit bind oracle to an ordered trace of events plus a result,
and the returned long-running task as a value whose execution over a
listener history is given by `runTask`.  The listener machinery itself
(hyper) and `GraphQLService::new` (crate::service) are not part of the
given source; those definitions are modelled from the spec and marked so.
-/

/-- Rust `u16`: ports are unsigned 16-bit integers. -/
abbrev U16 := Fin 65536

/-- Rust `std::net::Ipv4Addr`: four `u8` octets. -/
structure Ipv4Addr where
  o0 : Fin 256
  o1 : Fin 256
  o2 : Fin 256
  o3 : Fin 256
deriving DecidableEq, Repr

/-- Rust `std::net::SocketAddrV4`: an IPv4 address together with a port. -/
structure SocketAddrV4 where
  ip : Ipv4Addr
  port : U16
deriving DecidableEq, Repr

/-- Textual form of an `Ipv4Addr`, as Rust's `Display` renders it. -/
def Ipv4Addr.toStr (ip : Ipv4Addr) : String :=
  toString ip.o0.val ++ "." ++ toString ip.o1.val ++ "." ++
  toString ip.o2.val ++ "." ++ toString ip.o3.val

/-- Textual form of a `SocketAddrV4`, as Rust's `Display` renders it
("a.b.c.d:port"). -/
def SocketAddrV4.toStr (a : SocketAddrV4) : String :=
  a.ip.toStr ++ ":" ++ toString a.port.val

/-- Opaque stand-in for `hyper::Error`; `msg` is its `Display` rendering,
used by the source through `format!("\x7b\x7d", e)`. -/
structure HyperError where
  msg : String
deriving DecidableEq, Repr

/-- The source's error enum:
`enum GraphQLServeError \x7b BindError(#[from] hyper::Error) \x7d`. -/
inductive GraphQLServeError where
  | BindError (e : HyperError)
deriving DecidableEq, Repr

/-- The `#[error("Bind error: \x7b0\x7d")]` `Display` implementation derived by
thiserror on `GraphQLServeError`. -/
def GraphQLServeError.toStr : GraphQLServeError → String
  | .BindError e => "Bind error: " ++ e.msg

/-- Severities used by this source file (`info!` and `error!`). -/
inductive LogLevel where
  | info
  | error
deriving DecidableEq, Repr

/-- Modelled from the spec: the logging subsystem's `Logger` is an opaque
structured sink, here a component tag, an optional Elastic index name, and
an opaque sink identifier inherited from the factory; cloning a logger is
a pure value copy. -/
structure Logger where
  component : Option String
  elastic_index : Option String
  sink : Nat
deriving DecidableEq, Repr

/-- One structured log record: emitting logger, severity, message, and a
list of structured key/value fields. -/
structure LogEvent where
  logger : Logger
  level : LogLevel
  message : String
  fields : List (String × String)
deriving DecidableEq, Repr

/-- Mirror of `graph::log::factory::ElasticComponentLoggerConfig`. -/
structure ElasticComponentLoggerConfig where
  index : String
deriving DecidableEq, Repr

/-- Mirror of `graph::log::factory::ComponentLoggerConfig`. -/
structure ComponentLoggerConfig where
  elastic : Option ElasticComponentLoggerConfig
deriving DecidableEq, Repr

/-- Modelled from the spec: `graph::prelude::LoggerFactory` is not in the
given source; per the spec it "produces a tagged, structured logger".  It
carries the configured sink that component loggers inherit. -/
structure LoggerFactory where
  sink : Nat
deriving DecidableEq, Repr

/-- Modelled from the spec: `LoggerFactory::component_logger` "constructs a
component-scoped logger (tagged for this subsystem, with a configured
structured sink)": the returned logger is tagged with the component name,
carries the Elastic index from the config when one is given, and keeps the
factory's sink. -/
def LoggerFactory.component_logger (f : LoggerFactory) (name : String)
    (cfg : Option ComponentLoggerConfig) : Logger :=
  { component := some name
    elastic_index := cfg.bind (fun c => c.elastic.map (fun e => e.index))
    sink := f.sink }

/-- Mirror of `GraphQLServer<Q>`: the `ServerState` of the spec.  The
`Arc<Q>` shared handle and the `NodeId` are opaque collaborators, taken as
type parameters; cloning either is a pure value copy (for `Arc`, a clone
observes the same logical backend). -/
structure GraphQLServer (Q N : Type) where
  logger : Logger
  graphql_runner : Q
  node_id : N
deriving DecidableEq, Repr

/-- Mirror of `GraphQLServer::new`: builds the component logger for
component "GraphQLServer" with Elastic index "graphql-server-logs" and
stores the backend handle and node identity.  A total function: no
failure path and no effect output. -/
def GraphQLServer.new {Q N : Type} (logger_factory : LoggerFactory)
    (graphql_runner : Q) (node_id : N) : GraphQLServer Q N :=
  { logger := logger_factory.component_logger "GraphQLServer"
      (some { elastic := some { index := "graphql-server-logs" } })
    graphql_runner := graphql_runner
    node_id := node_id }

/-- Modelled from the spec: `GraphQLService::new` (crate::service) is not in
the given source; per the spec a ConnectionHandler holds "a clone of the
logger, a shared reference to the backend, the secondary port, and a copy
of the node identity", with no failure path. -/
structure GraphQLService (Q N : Type) where
  logger : Logger
  graphql_runner : Q
  ws_port : U16
  node_id : N
deriving DecidableEq, Repr

/-- Constructor wrapper matching the call
`GraphQLService::new(logger, graphql_runner, ws_port, node_id)`. -/
def GraphQLService.new {Q N : Type} (logger : Logger) (graphql_runner : Q)
    (ws_port : U16) (node_id : N) : GraphQLService Q N :=
  { logger := logger, graphql_runner := graphql_runner,
    ws_port := ws_port, node_id := node_id }

/-- The long-running value returned by a successful `serve`: the logger
moved into the `map_err` closure, and the `make_service_fn` closure, which
per invocation yields `futures03::future::ok(GraphQLService::new(...))` —
an `Except` whose error type is the (never used) `anyhow::Error`,
rendered as a string. -/
structure ServerTask (Q N : Type) where
  err_logger : Logger
  new_service : Unit → Except String (GraphQLService Q N)

/-- Ordered synchronous effects of a `serve` call: structured log emissions
and the single bind attempt. -/
inductive ServeEvent where
  | log (e : LogEvent)
  | tryBind (addr : SocketAddrV4)
deriving DecidableEq, Repr

/-- Result of the synchronous phase of `serve`: the server state as left
behind by the call, the ordered effect trace, and either the bind error or
the long-running task. -/
structure ServeOutput (Q N : Type) where
  state : GraphQLServer Q N
  events : List ServeEvent
  result : Except GraphQLServeError (ServerTask Q N)

/-- The info line logged by `serve` before binding:
`info!(logger, "Starting GraphQL HTTP server at: http://localhost:\x7b\x7d", port)`. -/
def startupMessage (port : U16) : String :=
  "Starting GraphQL HTTP server at: http://localhost:" ++ toString port.val

/-- Mirror of `GraphQLServer::serve(&mut self, port, ws_port)`.  The
fallibility of `hyper::Server::try_bind` is made explicit as the oracle
`try_bind`; everything else follows the source line by line: clone the
logger, emit the info line, build the wildcard address, capture clones of
the logger, runner and node id in the `make_service_fn` closure, then bind
(`?` returns `BindError` on failure) and otherwise return the task whose
`map_err` closure owns the cloned logger. -/
def GraphQLServer.serve {Q N : Type} (self : GraphQLServer Q N)
    (port ws_port : U16)
    (try_bind : SocketAddrV4 → Except HyperError Unit) : ServeOutput Q N :=
  let logger := self.logger
  let infoLine : LogEvent :=
    { logger := logger, level := .info, message := startupMessage port, fields := [] }
  let addr : SocketAddrV4 := { ip := { o0 := 0, o1 := 0, o2 := 0, o3 := 0 }, port := port }
  let logger_for_service := self.logger
  let graphql_runner := self.graphql_runner
  let node_id := self.node_id
  let new_service : Unit → Except String (GraphQLService Q N) := fun _ =>
    Except.ok (GraphQLService.new logger_for_service graphql_runner ws_port node_id)
  match try_bind addr with
  | .error e =>
      { state := self
        events := [.log infoLine, .tryBind addr]
        result := .error (.BindError e) }
  | .ok _ =>
      { state := self
        events := [.log infoLine, .tryBind addr]
        result := .ok { err_logger := logger, new_service := new_service } }

/-- Outcome of serving one accepted connection: either it was served
without error, or an error (rendered as text) surfaced while serving it. -/
inductive ConnResult where
  | served
  | failed (e : String)
deriving DecidableEq, Repr

/-- One possible history of the listener while the task runs: the accepted
connections in order, and optionally an irrecoverable listener failure
that resolves the serve future. -/
structure ListenerRun where
  conns : List ConnResult
  fatal : Option HyperError
deriving DecidableEq, Repr

/-- Whether the task has completed (the serve future resolved) or is still
pending after the given history. -/
inductive TaskStatus where
  | running
  | completed
deriving DecidableEq, Repr

/-- Observable trace of running the task over a listener history: the
error-severity log records, the ConnectionHandlers produced, and whether
the task terminated.  The task's value type is `Unit`: no error value can
reach whoever drives it. -/
structure TaskTrace (Q N : Type) where
  logs : List LogEvent
  services : List (GraphQLService Q N)
  status : TaskStatus

/-- Modelled from the spec: the record logged for an error surfaced while
serving one connection — hyper's connection driving is not in the given
source; the spec fixes "error severity" and "an `error` field containing
the failure's textual representation". -/
def connErrorLog {Q N : Type} (t : ServerTask Q N) (e : String) : LogEvent :=
  { logger := t.err_logger, level := .error, message := "", fields := [("error", e)] }

/-- The record logged by the source's `map_err` closure when the serve
future resolves with an error:
`error!(logger, "Server error"; "error" => format!("\x7b\x7d", e))`. -/
def serverErrorLog {Q N : Type} (t : ServerTask Q N) (e : HyperError) : LogEvent :=
  { logger := t.err_logger, level := .error, message := "Server error",
    fields := [("error", e.msg)] }

/-- Modelled from the spec: the semantics of the returned task (hyper's
serve loop is not in the given source).  Per the spec: for every accepted
connection the factory is invoked exactly once and the handler drives the
connection; an error surfaced while serving a single connection is caught
there, logged and discarded, and later connections are still served; the
task terminates only when the listener itself fails irrecoverably, in
which case the source's `map_err` closure logs the failure and the task
completes with `()`. -/
def runTask {Q N : Type} (t : ServerTask Q N) (run : ListenerRun) : TaskTrace Q N :=
  { services := run.conns.filterMap (fun _ => (t.new_service ()).toOption)
    logs :=
      run.conns.filterMap (fun c =>
        match c with
        | .served => none
        | .failed e => some (connErrorLog t e)) ++
      (match run.fatal with
       | some e => [serverErrorLog t e]
       | none => [])
    status :=
      match run.fatal with
      | some _ => .completed
      | none => .running }

/-- The bind address a `ServeEvent` carries, if it is a bind attempt. -/
def ServeEvent.bindAddr : ServeEvent → Option SocketAddrV4
  | .tryBind a => some a
  | .log _ => none

/-- The message of a `ServeEvent`, if it is an info-severity log record. -/
def ServeEvent.infoMessage : ServeEvent → Option String
  | .log e => if e.level = .info then some e.message else none
  | .tryBind _ => none

/-- Does `msg` contain `sub` as a substring?  (Via `String.splitOn`: the
split has at least two pieces exactly when the separator occurs.) -/
def mentions (msg sub : String) : Bool :=
  (msg.splitOn sub).length ≥ 2

/-- The wildcard IPv4 address `0.0.0.0` built by `serve`. -/
def wildcardV4 : Ipv4Addr := { o0 := 0, o1 := 0, o2 := 0, o3 := 0 }

/-- Does the character list start with the given pattern? -/
def charsStartWith : List Char → List Char → Bool
  | _, [] => true
  | [], _ :: _ => false
  | c :: cs, d :: ds => c == d && charsStartWith cs ds

/-- Does the character list contain the given pattern as a contiguous run? -/
def charsContain : List Char → List Char → Bool
  | [], sub => sub.isEmpty
  | c :: cs, sub => charsStartWith (c :: cs) sub || charsContain cs sub

/-- Does `msg` contain `sub` as a substring? -/
def strMentions (msg sub : String) : Bool :=
  charsContain msg.toList sub.toList

/-- A list whose elements are all mapped to `some b` filter-maps to the
constant list of `b`s. -/
theorem filterMap_const_some {α β : Type} (l : List α) (b : β) :
    l.filterMap (fun _ => some b) = l.map (fun _ => b) := by
  induction l with
  | nil => rfl
  | cons a l ih => simp [List.filterMap_cons, ih]

/-- Concrete logger factory for witnesses. -/
def sampleFactory : LoggerFactory := { sink := 0 }

/-- Concrete server state for witnesses: backend handle `5`, node id `7`. -/
def sampleServer : GraphQLServer Nat Nat := GraphQLServer.new sampleFactory 5 7

/-- Bind oracle that always succeeds. -/
def okBind : SocketAddrV4 → Except HyperError Unit := fun _ => Except.ok ()

/-- Bind oracle that always fails with an address-in-use error. -/
def failBind : SocketAddrV4 → Except HyperError Unit :=
  fun _ => Except.error { msg := "address in use" }

/-- The ConnectionHandler every accepted connection of `sampleServer` gets. -/
def sampleService : GraphQLService Nat Nat :=
  GraphQLService.new sampleServer.logger 5 4001 7

/-- The task value `sampleServer.serve 4000 4001 okBind` returns. -/
def sampleTask : ServerTask Nat Nat :=
  { err_logger := sampleServer.logger, new_service := fun _ => Except.ok sampleService }

/-- C1: if binding the TCP listener fails, `serve` returns immediately with
`GraphQLServeError.BindError` wrapping the underlying network error as a
typed value; the result carries no task, so no connection is ever
accepted. -/
theorem serve_bind_failure {Q N : Type} (s : GraphQLServer Q N)
    (port ws_port : U16) (try_bind : SocketAddrV4 → Except HyperError Unit)
    (e : HyperError)
    (h : try_bind { ip := wildcardV4, port := port } = .error e) :
    (s.serve port ws_port try_bind).result
      = .error (GraphQLServeError.BindError e) ∧
    ∀ t : ServerTask Q N, (s.serve port ws_port try_bind).result ≠ .ok t := by
  constructor
  · simp [GraphQLServer.serve, wildcardV4] at h ⊢
    rw [h]
  · intro t
    simp [GraphQLServer.serve, wildcardV4] at h ⊢
    rw [h]
    simp

/-- Witness for C1 at a concrete input: an address-in-use bind failure on
port 4000 is returned as `BindError`. -/
theorem serve_bind_failure_witness :
    (sampleServer.serve 4000 4001 failBind).result
      = .error (GraphQLServeError.BindError { msg := "address in use" }) :=
  (serve_bind_failure sampleServer 4000 4001 failBind
    { msg := "address in use" } rfl).1

/-- C7: every `serve(port, ws_port)` call attempts exactly one bind, and its
target is the fixed wildcard IPv4 address `0.0.0.0` with the
caller-supplied 16-bit port; no other address or interface can be selected
through this interface. -/
theorem serve_bind_target {Q N : Type} (s : GraphQLServer Q N)
    (port ws_port : U16) (try_bind : SocketAddrV4 → Except HyperError Unit) :
    (s.serve port ws_port try_bind).events.filterMap ServeEvent.bindAddr
      = [{ ip := wildcardV4, port := port }] := by
  cases h : try_bind { ip := wildcardV4, port := port } <;>
    · simp [GraphQLServer.serve, wildcardV4] at h ⊢
      rw [h]
      simp [ServeEvent.bindAddr]

/-- C8: `new(loggerFactory, backend, nodeIdentity)` is a total pure function
(it cannot fail and has no effect output) returning a state that stores
the given backend handle and node identity together with a logger tagged
for component "GraphQLServer", configured with the "graphql-server-logs"
structured sink index, and the factory's sink. -/
theorem new_stores_backend_and_tagged_logger {Q N : Type}
    (f : LoggerFactory) (q : Q) (n : N) :
    (GraphQLServer.new f q n).graphql_runner = q ∧
    (GraphQLServer.new f q n).node_id = n ∧
    (GraphQLServer.new f q n).logger.component = some "GraphQLServer" ∧
    (GraphQLServer.new f q n).logger.elastic_index = some "graphql-server-logs" ∧
    (GraphQLServer.new f q n).logger.sink = f.sink :=
  ⟨rfl, rfl, rfl, rfl, rfl⟩

/-- C10: the startup info line is emitted before the bind attempt, so even a
`serve` call whose bind fails (and which therefore returns `BindError` and
no task) has emitted the startup log line, and it precedes the bind event
in the trace. -/
theorem startup_log_precedes_failing_bind {Q N : Type} (s : GraphQLServer Q N)
    (port ws_port : U16) (try_bind : SocketAddrV4 → Except HyperError Unit)
    (e : HyperError)
    (h : try_bind { ip := wildcardV4, port := port } = .error e) :
    (s.serve port ws_port try_bind).events =
      [.log { logger := s.logger, level := .info,
              message := startupMessage port, fields := [] },
       .tryBind { ip := wildcardV4, port := port }] ∧
    (s.serve port ws_port try_bind).result
      = .error (GraphQLServeError.BindError e) := by
  simp [GraphQLServer.serve, wildcardV4] at h ⊢
  rw [h]
  simp

/-- Witness for C10 at a concrete input: with a failing bind oracle on port
4000, the trace still starts with the startup info line. -/
theorem startup_log_precedes_failing_bind_witness :
    (sampleServer.serve 4000 4001 failBind).events =
      [.log { logger := sampleServer.logger, level := .info,
              message := startupMessage 4000, fields := [] },
       .tryBind { ip := wildcardV4, port := 4000 }] :=
  (startup_log_precedes_failing_bind sampleServer 4000 4001 failBind
    { msg := "address in use" } rfl).1

/-- Helper: `serve` leaves the server state exactly as it was, whatever the
bind outcome. -/
theorem serve_state_eq {Q N : Type} (s : GraphQLServer Q N) (port ws_port : U16)
    (try_bind : SocketAddrV4 → Except HyperError Unit) :
    (s.serve port ws_port try_bind).state = s := by
  cases h : try_bind { ip := wildcardV4, port := port } <;>
    · simp [GraphQLServer.serve, wildcardV4] at h ⊢
      rw [h]

/-- Helper: the synchronous trace of `serve` is always the startup info line
followed by the single bind attempt at `0.0.0.0:port`. -/
theorem serve_events_eq {Q N : Type} (s : GraphQLServer Q N) (port ws_port : U16)
    (try_bind : SocketAddrV4 → Except HyperError Unit) :
    (s.serve port ws_port try_bind).events =
      [.log { logger := s.logger, level := .info,
              message := startupMessage port, fields := [] },
       .tryBind { ip := wildcardV4, port := port }] := by
  cases h : try_bind { ip := wildcardV4, port := port } <;>
    · simp [GraphQLServer.serve, wildcardV4] at h ⊢
      rw [h]

/-- Helper: when the bind oracle succeeds, `serve` returns the task holding
the cloned logger and the service factory that builds each
ConnectionHandler from the stored logger, backend, secondary port and node
identity. -/
theorem serve_ok_result {Q N : Type} (s : GraphQLServer Q N) (port ws_port : U16)
    (try_bind : SocketAddrV4 → Except HyperError Unit) (u : Unit)
    (htb : try_bind { ip := wildcardV4, port := port } = .ok u) :
    (s.serve port ws_port try_bind).result = .ok
      { err_logger := s.logger,
        new_service := fun _ => Except.ok
          (GraphQLService.new s.logger s.graphql_runner ws_port s.node_id) } := by
  simp [GraphQLServer.serve, wildcardV4] at htb ⊢
  rw [htb]

/-- Helper: a task returned by a successful `serve` is exactly the canonical
task value. -/
theorem serve_ok_task_eq {Q N : Type} (s : GraphQLServer Q N) (port ws_port : U16)
    (try_bind : SocketAddrV4 → Except HyperError Unit) (t : ServerTask Q N)
    (h : (s.serve port ws_port try_bind).result = .ok t) :
    t = { err_logger := s.logger,
          new_service := fun _ => Except.ok
            (GraphQLService.new s.logger s.graphql_runner ws_port s.node_id) } := by
  cases htb : try_bind { ip := wildcardV4, port := port } with
  | error e =>
      exfalso
      simp [GraphQLServer.serve, wildcardV4] at h htb
      rw [htb] at h
      simp at h
  | ok u =>
      have h2 := (h.symm.trans (serve_ok_result s port ws_port try_bind u htb))
      injection h2

/-- Helper: a task whose factory constantly yields `Except.ok svc` produces
one copy of `svc` per connection in the run. -/
theorem runTask_services_map {Q N : Type} (el : Logger)
    (svc : GraphQLService Q N) (run : ListenerRun) :
    (runTask { err_logger := el, new_service := fun _ => Except.ok svc }
        run).services
      = run.conns.map (fun _ => svc) := by
  simp [runTask, Except.toOption, filterMap_const_some]

/-- Helper: the services produced over any run by a task returned from
`serve` are one canonical ConnectionHandler per connection. -/
theorem serve_task_services {Q N : Type} (s : GraphQLServer Q N)
    (port ws_port : U16) (try_bind : SocketAddrV4 → Except HyperError Unit)
    (t : ServerTask Q N) (run : ListenerRun)
    (h : (s.serve port ws_port try_bind).result = .ok t) :
    (runTask t run).services = run.conns.map
      (fun _ => GraphQLService.new s.logger s.graphql_runner ws_port s.node_id) := by
  rw [serve_ok_task_eq s port ws_port try_bind t h, runTask_services_map]

/-- C3: for a task returned by `serve`, the Connection Handler Factory is
invoked exactly once per accepted connection (one handler per connection
in the run), it always succeeds (no failure path), and each produced
handler is built from the logger clone, the shared backend handle, the
secondary port and the node identity copy. -/
theorem factory_once_per_connection {Q N : Type} (s : GraphQLServer Q N)
    (port ws_port : U16) (try_bind : SocketAddrV4 → Except HyperError Unit)
    (t : ServerTask Q N) (run : ListenerRun)
    (h : (s.serve port ws_port try_bind).result = .ok t) :
    t.new_service ()
      = .ok (GraphQLService.new s.logger s.graphql_runner ws_port s.node_id) ∧
    (runTask t run).services.length = run.conns.length ∧
    ∀ svc ∈ (runTask t run).services,
      svc = GraphQLService.new s.logger s.graphql_runner ws_port s.node_id := by
  have hsv := serve_task_services s port ws_port try_bind t run h
  refine ⟨?_, ?_, ?_⟩
  · rw [serve_ok_task_eq s port ws_port try_bind t h]
  · rw [hsv, List.length_map]
  · intro svc hsvc
    rw [hsv] at hsvc
    obtain ⟨a, -, ha⟩ := List.mem_map.mp hsvc
    exact ha.symm

/-- Witness for C3 at a concrete input: for the sample server on ports
4000/4001 with a successful bind and a run of three connections, three
identical handlers are produced. -/
theorem factory_once_per_connection_witness :
    sampleTask.new_service () = .ok sampleService ∧
    (runTask sampleTask { conns := [.served, .failed "boom", .served],
                          fatal := none }).services.length = 3 := by
  have h := factory_once_per_connection sampleServer 4000 4001 okBind sampleTask
    { conns := [.served, .failed "boom", .served], fatal := none } rfl
  exact ⟨h.1, h.2.1⟩

/-- C4: the backend handle and node identity are never mutated by `serve`:
for a state built by `new` with backend `B` and identity `n`, the state
after `serve` still stores `B` and `n`, and every ConnectionHandler
produced during any run of the returned task references exactly `B` and
`n`. -/
theorem backend_identity_invariant {Q N : Type} (f : LoggerFactory) (B : Q)
    (n : N) (port ws_port : U16)
    (try_bind : SocketAddrV4 → Except HyperError Unit)
    (t : ServerTask Q N) (run : ListenerRun) (svc : GraphQLService Q N)
    (h : ((GraphQLServer.new f B n).serve port ws_port try_bind).result = .ok t)
    (hsvc : svc ∈ (runTask t run).services) :
    ((GraphQLServer.new f B n).serve port ws_port try_bind).state.graphql_runner
      = B ∧
    ((GraphQLServer.new f B n).serve port ws_port try_bind).state.node_id = n ∧
    svc.graphql_runner = B ∧ svc.node_id = n := by
  have hstate := serve_state_eq (GraphQLServer.new f B n) port ws_port try_bind
  have hsv := serve_task_services (GraphQLServer.new f B n) port ws_port try_bind
    t run h
  rw [hsv] at hsvc
  obtain ⟨a, -, ha⟩ := List.mem_map.mp hsvc
  have hsvcEq := ha.symm
  refine ⟨by rw [hstate]; rfl, by rw [hstate]; rfl, ?_, ?_⟩ <;> rw [hsvcEq] <;> rfl

/-- Witness for C4 at a concrete input: backend `5` and identity `7` survive
into the state after `serve` and into a produced handler. -/
theorem backend_identity_invariant_witness :
    (sampleServer.serve 4000 4001 okBind).state.graphql_runner = 5 ∧
    (sampleServer.serve 4000 4001 okBind).state.node_id = 7 ∧
    sampleService.graphql_runner = 5 ∧ sampleService.node_id = 7 :=
  backend_identity_invariant sampleFactory 5 7 4000 4001 okBind sampleTask
    { conns := [.served], fatal := none } sampleService rfl
    (by simp [runTask, sampleTask, Except.toOption])

/-- Second ConnectionHandler value for witnesses: secondary port 5001. -/
def sampleService2 : GraphQLService Nat Nat :=
  GraphQLService.new sampleServer.logger 5 5001 7

/-- The task value a second `serve` call on the sample server returns when
invoked with ports 5000/5001. -/
def sampleTask2 : ServerTask Nat Nat :=
  { err_logger := sampleServer.logger, new_service := fun _ => Except.ok sampleService2 }

/-- C9: `serve` never mutates the `ServerState` — after any call, successful
or failed, the state (logger, backend handle, node identity) is unchanged,
so a second `serve` on the same state attempts its own bind on its own
port and both returned tasks build handlers sharing the very same backend
handle and identity. -/
theorem serve_no_mutation {Q N : Type} (s : GraphQLServer Q N)
    (p1 w1 p2 w2 : U16) (tb1 tb2 : SocketAddrV4 → Except HyperError Unit)
    (t1 t2 : ServerTask Q N)
    (h1 : (s.serve p1 w1 tb1).result = .ok t1)
    (h2 : ((s.serve p1 w1 tb1).state.serve p2 w2 tb2).result = .ok t2) :
    (∀ (p w : U16) (tb : SocketAddrV4 → Except HyperError Unit),
        (s.serve p w tb).state = s) ∧
    ServeEvent.tryBind { ip := wildcardV4, port := p1 }
      ∈ (s.serve p1 w1 tb1).events ∧
    ServeEvent.tryBind { ip := wildcardV4, port := p2 }
      ∈ ((s.serve p1 w1 tb1).state.serve p2 w2 tb2).events ∧
    t1.new_service ()
      = .ok (GraphQLService.new s.logger s.graphql_runner w1 s.node_id) ∧
    t2.new_service ()
      = .ok (GraphQLService.new s.logger s.graphql_runner w2 s.node_id) := by
  have hs := serve_state_eq s p1 w1 tb1
  refine ⟨fun p w tb => serve_state_eq s p w tb, ?_, ?_, ?_, ?_⟩
  · rw [serve_events_eq]
    simp
  · rw [hs, serve_events_eq]
    simp
  · rw [serve_ok_task_eq s p1 w1 tb1 t1 h1]
  · rw [hs] at h2
    rw [serve_ok_task_eq s p2 w2 tb2 t2 h2]

/-- Witness for C9 at a concrete input: two successive `serve` calls on the
sample server leave the state intact and give tasks whose handlers share
backend `5`. -/
theorem serve_no_mutation_witness :
    (sampleServer.serve 4000 4001 okBind).state = sampleServer ∧
    sampleTask.new_service ()
      = .ok (GraphQLService.new sampleServer.logger 5 4001 7) ∧
    sampleTask2.new_service ()
      = .ok (GraphQLService.new sampleServer.logger 5 5001 7) := by
  have H := serve_no_mutation sampleServer 4000 4001 5000 5001 okBind okBind
    sampleTask sampleTask2 rfl rfl
  exact ⟨H.1 4000 4001 okBind, H.2.2.2.1, H.2.2.2.2⟩

/-- C2: an error surfaced while serving an individual connection is logged at
error severity with an `error` field holding its text, is only logged (no
error value exists in the trace to propagate to the caller), leaves the
task's termination status exactly as it would be without any connection
errors, and later connections are still served (one handler per
connection regardless of failures). -/
theorem per_connection_error_contained {Q N : Type} (s : GraphQLServer Q N)
    (port ws_port : U16) (try_bind : SocketAddrV4 → Except HyperError Unit)
    (t : ServerTask Q N) (run : ListenerRun)
    (h : (s.serve port ws_port try_bind).result = .ok t) :
    (∀ e, ConnResult.failed e ∈ run.conns →
        connErrorLog t e ∈ (runTask t run).logs ∧
        (connErrorLog t e).level = .error ∧
        (connErrorLog t e).fields = [("error", e)]) ∧
    (runTask t run).status
      = (runTask t { conns := [], fatal := run.fatal }).status ∧
    (runTask t run).services.length = run.conns.length := by
  refine ⟨?_, rfl, ?_⟩
  · intro e he
    refine ⟨?_, rfl, rfl⟩
    exact List.mem_append_left _
      (List.mem_filterMap.mpr ⟨ConnResult.failed e, he, rfl⟩)
  · rw [serve_task_services s port ws_port try_bind t run h, List.length_map]

/-- Witness for C2 at a concrete input: a run in which the first connection
fails still serves the second, logs the failure at error severity, and
keeps the task running. -/
theorem per_connection_error_contained_witness :
    connErrorLog sampleTask "boom"
      ∈ (runTask sampleTask
          { conns := [.failed "boom", .served], fatal := none }).logs ∧
    (runTask sampleTask
        { conns := [.failed "boom", .served], fatal := none }).status
      = (runTask sampleTask { conns := [], fatal := none }).status ∧
    (runTask sampleTask
        { conns := [.failed "boom", .served], fatal := none }).services.length
      = 2 := by
  have H := per_connection_error_contained sampleServer 4000 4001 okBind
    sampleTask { conns := [.failed "boom", .served], fatal := none } rfl
  exact ⟨(H.1 "boom" (by simp)).1, H.2.1, H.2.2⟩

/-- C5: the task returned by a successful `serve` completes exactly when the
listener itself fails irrecoverably; in that case the failure is logged
(the `map_err` record "Server error" with the failure's text in the
`error` field) rather than returned — the trace carries no error value. -/
theorem task_completes_only_on_listener_failure {Q N : Type}
    (s : GraphQLServer Q N) (port ws_port : U16)
    (try_bind : SocketAddrV4 → Except HyperError Unit)
    (t : ServerTask Q N) (run : ListenerRun)
    (h : (s.serve port ws_port try_bind).result = .ok t) :
    ((runTask t run).status = .completed ↔ ∃ e, run.fatal = some e) ∧
    ∀ e, run.fatal = some e →
      serverErrorLog t e ∈ (runTask t run).logs ∧
      (serverErrorLog t e).logger = s.logger ∧
      (serverErrorLog t e).level = .error ∧
      (serverErrorLog t e).message = "Server error" ∧
      (serverErrorLog t e).fields = [("error", e.msg)] := by
  have hlog : t.err_logger = s.logger := by
    rw [serve_ok_task_eq s port ws_port try_bind t h]
  obtain ⟨conns, fatal⟩ := run
  cases fatal with
  | none =>
      refine ⟨?_, ?_⟩
      · simp [runTask]
      · intro e he
        exact absurd he (by simp)
  | some e0 =>
      refine ⟨?_, ?_⟩
      · simp [runTask]
      · intro e he
        have he0 : e = e0 := by
          injection he.symm
        subst he0
        refine ⟨?_, hlog, rfl, rfl, rfl⟩
        exact List.mem_append_right _ (by simp [runTask])

/-- Witness for C5 at a concrete input: a run ending in a revoked socket
completes the task and logs "Server error" with the failure's text. -/
theorem task_completes_only_on_listener_failure_witness :
    (runTask sampleTask
        { conns := [.served], fatal := some { msg := "socket revoked" } }).status
      = .completed ∧
    serverErrorLog sampleTask { msg := "socket revoked" }
      ∈ (runTask sampleTask
          { conns := [.served], fatal := some { msg := "socket revoked" } }).logs := by
  have H := task_completes_only_on_listener_failure sampleServer 4000 4001
    okBind sampleTask
    { conns := [.served], fatal := some { msg := "socket revoked" } } rfl
  exact ⟨H.1.mpr ⟨_, rfl⟩, (H.2 _ rfl).1⟩

/-- C6 counterexample: the one startup info line of a concrete `serve` call
(port 4000) does not contain the bound address — the listener is bound to
the wildcard address, whose textual form is "0.0.0.0:4000", yet the
message announces "http://localhost:4000"; so the line does not announce
the bound address as the claim states. -/
theorem startup_line_omits_bound_address :
    (sampleServer.serve 4000 4001 okBind).events.filterMap
        ServeEvent.infoMessage
      = ["Starting GraphQL HTTP server at: http://localhost:4000"] ∧
    (sampleServer.serve 4000 4001 okBind).events.filterMap ServeEvent.bindAddr
      = [{ ip := wildcardV4, port := 4000 }] ∧
    SocketAddrV4.toStr { ip := wildcardV4, port := 4000 } = "0.0.0.0:4000" ∧
    strMentions "Starting GraphQL HTTP server at: http://localhost:4000"
      "0.0.0.0" = false ∧
    strMentions "Starting GraphQL HTTP server at: http://localhost:4000"
      "localhost:4000" = true := by
  refine ⟨rfl, rfl, rfl, ?_, ?_⟩ <;> decide

/-- C6 (amended): every `serve` call emits exactly one informational log
line, and it is emitted before the bind attempt — hence before any
connection is accepted; the line announces the endpoint as
`http://localhost:PORT` (it carries the listening port, with the host
written as `localhost` rather than the wildcard bound address). -/
theorem serve_one_startup_info_line {Q N : Type} (s : GraphQLServer Q N)
    (port ws_port : U16) (try_bind : SocketAddrV4 → Except HyperError Unit) :
    (s.serve port ws_port try_bind).events.filterMap ServeEvent.infoMessage
      = [startupMessage port] ∧
    (s.serve port ws_port try_bind).events =
      [.log { logger := s.logger, level := .info,
              message := startupMessage port, fields := [] },
       .tryBind { ip := wildcardV4, port := port }] ∧
    startupMessage port
      = "Starting GraphQL HTTP server at: http://localhost:"
          ++ toString port.val := by
  refine ⟨?_, serve_events_eq s port ws_port try_bind, rfl⟩
  rw [serve_events_eq]
  simp [ServeEvent.infoMessage]
